import Mathlib

/-!
Verification of the can-bridge CAN gateway core.

Shallow embedding of the Go source:
- machine integers are `Nat` with explicit `% 2^w` where overflow matters;
- `time.Duration` latencies are nonnegative nanosecond counts, so `Nat`
  (Go division of `Duration` values is truncating integer division);
- `float64` arithmetic in health ratios and success rates is modelled by
  exact rationals `ℚ`, which is faithful for the sign and threshold
  questions settled here;
- Go maps are modelled as lookup functions or association lists;
- socket and clock effects are oracle parameters (the outcome of the one
  `SendTo`/`InitializeSingle` call a function makes is passed in), and each
  embedded function counts the socket transmissions it performs.
-/

namespace CanBridge

/-! ## Frame codec (types.go `CanFrame`, sender.go `sendMessage`,
listener `listenOnInterface`)

The Go code reinterprets the struct
`CanFrame { ID uint32; Length uint8; _ [3]byte; Data [8]byte }`
as a 16-byte buffer: on the little-endian deployment targets this is
bytes 0-3 = identifier (little-endian), byte 4 = length, bytes 5-7 =
zeroed padding, bytes 8-15 = payload.  The listener parses a received
buffer back through the same layout and requires at least 16 bytes. -/

structure CanFrame where
  id : Nat
  length : Nat
  data : Fin 8 → Nat

/-- Serialize a frame to its 16-byte wire buffer (struct layout of
`CanFrame` as written by `sendMessage`). -/
def encodeFrame (f : CanFrame) : List Nat :=
  [f.id % 256, f.id / 256 % 256, f.id / 65536 % 256, f.id / 16777216 % 256,
   f.length % 256, 0, 0, 0,
   f.data 0, f.data 1, f.data 2, f.data 3,
   f.data 4, f.data 5, f.data 6, f.data 7]

/-- Parse a wire buffer back into a frame; the listener only parses reads
of at least 16 bytes (`if n >= 16` in `listenOnInterface`). -/
def decodeFrame (buf : List Nat) : Option CanFrame :=
  if buf.length ≥ 16 then
    some { id := buf.getD 0 0 + 256 * buf.getD 1 0 +
                 65536 * buf.getD 2 0 + 16777216 * buf.getD 3 0,
           length := buf.getD 4 0,
           data := fun i => buf.getD (8 + i.val) 0 }
  else
    none

/-- C1: for every frame with a 32-bit identifier and payload length at most
8, decoding the 16-byte buffer produced by encoding the frame yields a frame
whose identifier, length, and first `length` payload bytes equal those of
the original; bytes beyond `length` are not constrained. -/
theorem codec_roundtrip (f : CanFrame)
    (hid : f.id < 4294967296) (hlen : f.length ≤ 8) :
    ∃ g : CanFrame, decodeFrame (encodeFrame f) = some g ∧
      g.id = f.id ∧ g.length = f.length ∧
      ∀ i : Fin 8, i.val < f.length → g.data i = f.data i := by
  have h16 : 16 ≤ (encodeFrame f).length := by simp [encodeFrame]
  rw [decodeFrame, if_pos h16]
  refine ⟨_, rfl, ?_, ?_, ?_⟩
  · simp only [encodeFrame, List.getD]
    simp
    omega
  · simp only [encodeFrame, List.getD]
    simp
    omega
  · intro i hi
    fin_cases i <;> simp [encodeFrame]

/-- Witness for `codec_roundtrip` at the concrete frame with identifier
291, length 3 and payload bytes all 5. -/
theorem codec_roundtrip_witness :
    (291 : Nat) < 4294967296 ∧ (3 : Nat) ≤ 8 ∧
    (∃ g : CanFrame,
      decodeFrame (encodeFrame ⟨291, 3, fun _ => 5⟩) = some g ∧
      g.id = 291 ∧ g.length = 3 ∧
      ∀ i : Fin 8, i.val < 3 → g.data i = 5) :=
  ⟨by decide, by decide,
   codec_roundtrip ⟨291, 3, fun _ => 5⟩ (by decide) (by decide)⟩

/-! ## Bounded sliding window (shared shape of the message ring buffer and
the latency window)

Both `InterfaceMessageBuffer.AddMessage` and `InterfaceMetrics.RecordSuccess`
append one element and then drop the oldest element when the list exceeds a
capacity.  `slideAppend` is that step; the buffer and metrics definitions
below reduce to it definitionally. -/

/-- Append `x` and evict the oldest element if the capacity is exceeded. -/
def slideAppend (cap : Nat) (l : List α) (x : α) : List α :=
  let l2 := l ++ [x]
  if l2.length > cap then l2.drop 1 else l2

theorem slideAppend_length_le (cap : Nat) (l : List α) (x : α)
    (h : l.length ≤ cap) : (slideAppend cap l x).length ≤ cap := by
  rw [slideAppend]
  split <;> simp_all

/-- Folding `slideAppend` over `xs` keeps exactly the most recent `cap`
elements: the result is the concatenation with the overflow dropped from
the front. -/
theorem slideAppend_foldl (cap : Nat) (l xs : List α) (h : l.length ≤ cap) :
    xs.foldl (slideAppend cap) l =
      (l ++ xs).drop (l.length + xs.length - cap) := by
  induction xs generalizing l with
  | nil =>
    have h0 : l.length + ([] : List α).length - cap = 0 := by simp; omega
    rw [List.foldl_nil, h0, List.drop_zero, List.append_nil]
  | cons x xs ih =>
    rw [List.foldl_cons]
    by_cases hc : l.length + 1 ≤ cap
    · have hstep : slideAppend cap l x = l ++ [x] := by
        rw [slideAppend]
        simp
        omega
      rw [hstep, ih (l ++ [x]) (by simp; omega)]
      have harr : (l ++ [x]) ++ xs = l ++ x :: xs := by simp
      have hcount : (l ++ [x]).length + xs.length - cap =
          l.length + (x :: xs).length - cap := by simp; omega
      rw [harr, hcount]
    · have hl : l.length = cap := by omega
      have hstep : slideAppend cap l x = (l ++ [x]).drop 1 := by
        rw [slideAppend]
        simp
        omega
      have hlen : ((l ++ [x]).drop 1).length = cap := by simp; omega
      rw [hstep, ih _ (le_of_eq hlen), hlen]
      have hd : (l ++ [x]).drop 1 ++ xs = (l ++ x :: xs).drop 1 := by
        have hsplit : l ++ x :: xs = (l ++ [x]) ++ xs := by simp
        have happ : ((l ++ [x]) ++ xs).drop 1 = (l ++ [x]).drop 1 ++ xs :=
          List.drop_append_of_le_length (by simp)
        rw [hsplit, happ]
      rw [hd, List.drop_drop]
      have hcount : cap + xs.length - cap = xs.length := by omega
      have hcount2 : 1 + xs.length = l.length + (x :: xs).length - cap := by
        simp
        omega
      rw [hcount, hcount2]

/-! ## Message ring buffer (`InterfaceMessageBuffer`)

From the listener module: a per-interface bounded message history.
`CanMessageLog` carries the received frame; its `timestamp` is a clock
reading, modelled as a `Nat`. -/

structure CanMessageLog where
  interface : String
  id : Nat
  data : List Nat
  length : Nat
  timestamp : Nat
  direction : String
deriving DecidableEq

structure InterfaceMessageBuffer where
  interfaceName : String
  messages : List CanMessageLog
  maxSize : Nat
  totalReceived : Nat
deriving DecidableEq

/-- `NewInterfaceMessageBuffer`: empty history, zero running total. -/
def NewInterfaceMessageBuffer (name : String) (maxSize : Nat) :
    InterfaceMessageBuffer :=
  { interfaceName := name, messages := [], maxSize := maxSize,
    totalReceived := 0 }

/-- `AddMessage`: increment `totalReceived`, append, and drop the oldest
message when the buffer exceeds `maxSize`. -/
def AddMessage (buf : InterfaceMessageBuffer) (msg : CanMessageLog) :
    InterfaceMessageBuffer :=
  let ms := buf.messages ++ [msg]
  let ms2 := if ms.length > buf.maxSize then ms.drop 1 else ms
  { buf with messages := ms2, totalReceived := buf.totalReceived + 1 }

/-- `Clear`: empty the history and reset the running total. -/
def Clear (buf : InterfaceMessageBuffer) : InterfaceMessageBuffer :=
  { buf with messages := [], totalReceived := 0 }

/-- Insert a whole list of messages one `AddMessage` at a time. -/
def AddMessages (buf : InterfaceMessageBuffer) (msgs : List CanMessageLog) :
    InterfaceMessageBuffer :=
  msgs.foldl AddMessage buf

theorem AddMessage_messages (buf : InterfaceMessageBuffer)
    (msg : CanMessageLog) :
    (AddMessage buf msg).messages =
      slideAppend buf.maxSize buf.messages msg := rfl

theorem AddMessages_components (buf : InterfaceMessageBuffer)
    (msgs : List CanMessageLog) :
    (AddMessages buf msgs).messages =
        msgs.foldl (slideAppend buf.maxSize) buf.messages ∧
      (AddMessages buf msgs).maxSize = buf.maxSize ∧
      (AddMessages buf msgs).totalReceived =
        buf.totalReceived + msgs.length ∧
      (AddMessages buf msgs).interfaceName = buf.interfaceName := by
  induction msgs generalizing buf with
  | nil => simp [AddMessages]
  | cons m ms ih =>
    have h1 := ih (AddMessage buf m)
    have h2 : (AddMessage buf m).maxSize = buf.maxSize := rfl
    have h3 : (AddMessage buf m).totalReceived = buf.totalReceived + 1 := rfl
    have h4 : (AddMessage buf m).interfaceName = buf.interfaceName := rfl
    refine ⟨?_, ?_, ?_, ?_⟩
    · show (AddMessages (AddMessage buf m) ms).messages = _
      rw [h1.1, h2, AddMessage_messages]
      simp
    · show (AddMessages (AddMessage buf m) ms).maxSize = _
      rw [h1.2.1, h2]
    · show (AddMessages (AddMessage buf m) ms).totalReceived = _
      rw [h1.2.2.1, h3]
      simp
      omega
    · show (AddMessages (AddMessage buf m) ms).interfaceName = _
      rw [h1.2.2.2, h4]

/-- C2: inserting `C + k` messages (`k > 0`) into a fresh buffer of
capacity `C` leaves exactly the last `C` messages in insertion order, so
the buffered count is `C`, the oldest `k` messages are gone (for distinct
messages), and `totalReceived` is `C + k`; eviction never resets
`totalReceived` (every `AddMessage` increments it), only `Clear` does. -/
theorem ring_buffer_bound (C k : Nat) (name : String)
    (msgs : List CanMessageLog) (hk : 0 < k) (hlen : msgs.length = C + k) :
    (AddMessages (NewInterfaceMessageBuffer name C) msgs).messages =
        msgs.drop k ∧
      (AddMessages (NewInterfaceMessageBuffer name C) msgs).messages.length
        = C ∧
      (AddMessages (NewInterfaceMessageBuffer name C) msgs).totalReceived
        = C + k ∧
      (msgs.Nodup → ∀ m ∈ msgs.take k,
        m ∉ (AddMessages (NewInterfaceMessageBuffer name C) msgs).messages) ∧
      (Clear (AddMessages (NewInterfaceMessageBuffer name C) msgs)
        ).totalReceived = 0 ∧
      (∀ (b : InterfaceMessageBuffer) (m : CanMessageLog),
        (AddMessage b m).totalReceived = b.totalReceived + 1) := by
  obtain ⟨hmsg, -, htot, -⟩ :=
    AddMessages_components (NewInterfaceMessageBuffer name C) msgs
  have hdropcount : (NewInterfaceMessageBuffer name C).messages.length +
      msgs.length - (NewInterfaceMessageBuffer name C).maxSize = k := by
    simp [NewInterfaceMessageBuffer]
    omega
  have hmain : (AddMessages (NewInterfaceMessageBuffer name C) msgs).messages
      = msgs.drop k := by
    rw [hmsg, slideAppend_foldl _ _ _ (by simp [NewInterfaceMessageBuffer]),
      hdropcount]
    simp [NewInterfaceMessageBuffer]
  refine ⟨hmain, ?_, ?_, ?_, rfl, fun b m => rfl⟩
  · rw [hmain]
    simp
    omega
  · rw [htot]
    simp [NewInterfaceMessageBuffer]
    omega
  · intro hnodup m hmtake
    rw [hmain]
    have hsplit := msgs.take_append_drop k
    rw [← hsplit] at hnodup
    have hdisj := (List.nodup_append.mp hnodup).2.2
    exact fun hmem => hdisj hmtake hmem

/-- Witness for `ring_buffer_bound` at capacity 2 with 3 distinct
messages. -/
theorem ring_buffer_bound_witness :
    (0 : Nat) < 1 ∧
    ([⟨"can0", 1, [1], 1, 1, "RX"⟩, ⟨"can0", 2, [2], 1, 2, "RX"⟩,
      ⟨"can0", 3, [3], 1, 3, "RX"⟩] : List CanMessageLog).length = 2 + 1 ∧
    (AddMessages (NewInterfaceMessageBuffer "can0" 2)
        [⟨"can0", 1, [1], 1, 1, "RX"⟩, ⟨"can0", 2, [2], 1, 2, "RX"⟩,
         ⟨"can0", 3, [3], 1, 3, "RX"⟩]).messages =
      ([⟨"can0", 1, [1], 1, 1, "RX"⟩, ⟨"can0", 2, [2], 1, 2, "RX"⟩,
        ⟨"can0", 3, [3], 1, 3, "RX"⟩] : List CanMessageLog).drop 1 :=
  ⟨by decide, by decide,
    (ring_buffer_bound 2 1 "can0"
      [⟨"can0", 1, [1], 1, 1, "RX"⟩, ⟨"can0", 2, [2], 1, 2, "RX"⟩,
       ⟨"can0", 3, [3], 1, 3, "RX"⟩] (by decide) (by decide)).1⟩

/-! ## Metrics engine (types.go `InterfaceMetrics`)

Latencies are `time.Duration` values (nonnegative nanosecond counts from
`time.Since`), modelled as `Nat`; Go division of `Duration` values is
truncating integer division, which on nonnegative values is `Nat`
division.  The wall-clock fields (`LastSendTime`, `StartTime`,
`LastErrorTime`) are clock reads not needed by any claim and are
omitted. -/

structure InterfaceMetrics where
  totalSent : Nat
  totalErrors : Nat
  lastErrorMsg : String
  avgLatency : Nat
  messageLatency : List Nat
deriving DecidableEq

/-- `NewInterfaceMetrics`: all counters zero, empty latency history. -/
def NewInterfaceMetrics : InterfaceMetrics :=
  { totalSent := 0, totalErrors := 0, lastErrorMsg := "",
    avgLatency := 0, messageLatency := [] }

/-- `RecordSuccess`: bump `totalSent`, append the latency, evict the
oldest sample beyond 100, and recompute the average over the retained
window (Go `Duration` division, i.e. truncating). -/
def RecordSuccess (m : InterfaceMetrics) (latency : Nat) :
    InterfaceMetrics :=
  let ml := m.messageLatency ++ [latency]
  let ml2 := if ml.length > 100 then ml.drop 1 else ml
  { m with totalSent := m.totalSent + 1,
           messageLatency := ml2,
           avgLatency := if ml2.length > 0 then ml2.sum / ml2.length
                         else m.avgLatency }

/-- `RecordError`: bump `totalErrors` and remember the error text. -/
def RecordError (m : InterfaceMetrics) (err : String) : InterfaceMetrics :=
  { m with totalErrors := m.totalErrors + 1, lastErrorMsg := err }

/-- Record a whole list of send latencies one `RecordSuccess` at a time. -/
def RecordSuccesses (m : InterfaceMetrics) (ls : List Nat) :
    InterfaceMetrics :=
  ls.foldl RecordSuccess m

theorem RecordSuccess_messageLatency (m : InterfaceMetrics) (latency : Nat) :
    (RecordSuccess m latency).messageLatency =
      slideAppend 100 m.messageLatency latency := rfl

/-- After any `RecordSuccess` the stored average is the truncated mean of
the retained window, and the window is nonempty. -/
theorem RecordSuccess_avg (m : InterfaceMetrics) (latency : Nat) :
    (RecordSuccess m latency).messageLatency ≠ [] ∧
      (RecordSuccess m latency).avgLatency =
        (RecordSuccess m latency).messageLatency.sum /
          (RecordSuccess m latency).messageLatency.length := by
  have hpos : 0 < (RecordSuccess m latency).messageLatency.length := by
    rw [RecordSuccess_messageLatency, slideAppend]
    split
    · simp only [List.length_drop]
      omega
    · simp
  refine ⟨List.length_pos.mp hpos, ?_⟩
  have hcond : (slideAppend 100 m.messageLatency latency).length > 0 := by
    rw [← RecordSuccess_messageLatency]
    exact hpos
  show (if (slideAppend 100 m.messageLatency latency).length > 0
        then (slideAppend 100 m.messageLatency latency).sum /
          (slideAppend 100 m.messageLatency latency).length
        else m.avgLatency) =
    (RecordSuccess m latency).messageLatency.sum /
      (RecordSuccess m latency).messageLatency.length
  rw [if_pos hcond, RecordSuccess_messageLatency]

theorem RecordSuccesses_components (m : InterfaceMetrics) (ls : List Nat) :
    (RecordSuccesses m ls).messageLatency =
        ls.foldl (slideAppend 100) m.messageLatency ∧
      (RecordSuccesses m ls).totalSent = m.totalSent + ls.length ∧
      (RecordSuccesses m ls).totalErrors = m.totalErrors := by
  induction ls generalizing m with
  | nil => simp [RecordSuccesses]
  | cons x xs ih =>
    have h1 := ih (RecordSuccess m x)
    have h2 : (RecordSuccess m x).totalSent = m.totalSent + 1 := rfl
    have h3 : (RecordSuccess m x).totalErrors = m.totalErrors := rfl
    refine ⟨?_, ?_, ?_⟩
    · show (RecordSuccesses (RecordSuccess m x) xs).messageLatency = _
      rw [h1.1, RecordSuccess_messageLatency]
      simp
    · show (RecordSuccesses (RecordSuccess m x) xs).totalSent = _
      rw [h1.2.1, h2]
      simp
      omega
    · show (RecordSuccesses (RecordSuccess m x) xs).totalErrors = _
      rw [h1.2.2, h3]

/-- The average invariant holds after recording a nonempty list of
latencies (the last `RecordSuccess` recomputed it from the final
window). -/
theorem RecordSuccesses_avg (m : InterfaceMetrics) (ls : List Nat)
    (h : ls ≠ []) :
    (RecordSuccesses m ls).avgLatency =
      (RecordSuccesses m ls).messageLatency.sum /
        (RecordSuccesses m ls).messageLatency.length := by
  induction ls generalizing m with
  | nil => exact absurd rfl h
  | cons x xs ih =>
    by_cases hxs : xs = []
    · subst hxs
      exact (RecordSuccess_avg m x).2
    · exact ih (RecordSuccess m x) hxs

/-- C3: after 150 recorded send latencies the retained window is exactly
the last 100 samples and the stored average is the mean (in truncating
`Duration` arithmetic) of only those last 100. -/
theorem latency_window (ls : List Nat) (h : ls.length = 150) :
    (RecordSuccesses NewInterfaceMetrics ls).messageLatency = ls.drop 50 ∧
      (RecordSuccesses NewInterfaceMetrics ls).messageLatency.length = 100 ∧
      (RecordSuccesses NewInterfaceMetrics ls).avgLatency =
        (ls.drop 50).sum / 100 := by
  obtain ⟨hml, -, -⟩ := RecordSuccesses_components NewInterfaceMetrics ls
  have hmain : (RecordSuccesses NewInterfaceMetrics ls).messageLatency =
      ls.drop 50 := by
    rw [hml]
    show ls.foldl (slideAppend 100) [] = ls.drop 50
    rw [slideAppend_foldl 100 [] ls (by simp)]
    simp [h]
  have hlen : (RecordSuccesses NewInterfaceMetrics ls).messageLatency.length
      = 100 := by
    rw [hmain]
    simp [h]
  refine ⟨hmain, hlen, ?_⟩
  have hne : ls ≠ [] := by
    intro hcontra
    rw [hcontra] at h
    simp at h
  rw [RecordSuccesses_avg NewInterfaceMetrics ls hne, hlen, hmain]

/-- Witness for `latency_window` on 150 latencies 1..150 (constant 7 in
the first 50 positions, constant 9 afterwards): the window is the 100
nines and the average is 9. -/
theorem latency_window_witness :
    (List.replicate 50 7 ++ List.replicate 100 9).length = 150 ∧
    (RecordSuccesses NewInterfaceMetrics
        (List.replicate 50 7 ++ List.replicate 100 9)).messageLatency =
      (List.replicate 50 7 ++ List.replicate 100 9).drop 50 ∧
    (RecordSuccesses NewInterfaceMetrics
        (List.replicate 50 7 ++ List.replicate 100 9)).avgLatency =
      ((List.replicate 50 7 ++ List.replicate 100 9).drop 50).sum / 100 := by
  have h := latency_window (List.replicate 50 7 ++ List.replicate 100 9)
    (by simp)
  exact ⟨by simp, h.1, h.2.2⟩

/-! ## Watchdog (watchdog.go, interface.go)

Durations are in seconds.  `checkInterfaces` runs once per ticker tick
and iterates `GetAllInterfaces()`, i.e. only the interfaces currently
present in the registry map; for each it asks `shouldCheckInterface`,
probes `CheckHealth`, and on a failed probe runs
`handleUnhealthyInterface`.  A recovery (`recoverInterface`) first calls
`RemoveInterface`, which deletes the registry entry, and then
`InitializeSingle`, which re-inserts an entry only on success — the lone
registry insertion in the program; a failed recovery therefore leaves
the interface outside the registry, where `checkInterfaces` never
iterates it again.  The embedding keeps one interface's registry
membership and its recovery-attempt counter as the state; the outcomes
of the health probe and of the reinitialization are oracle booleans, and
each tick reports whether a reinitialization was attempted. -/

structure WatchdogConfig where
  checkInterval : Nat
  errorThreshold : Nat
  recoveryEnabled : Bool
  maxRecoveryAttempts : Nat
deriving DecidableEq

/-- `DefaultWatchdogConfig`: 10s interval, 30s error staleness, recovery
on, ceiling of 3 attempts. -/
def DefaultWatchdogConfig : WatchdogConfig :=
  { checkInterval := 10, errorThreshold := 30,
    recoveryEnabled := true, maxRecoveryAttempts := 3 }

/-- The watchdog-relevant state of one interface: whether it currently
has a registry entry (only those are iterated by `GetAllInterfaces`)
and its recovery-attempt counter. -/
structure WatchdogIfaceState where
  inRegistry : Bool
  attempts : Nat
deriving DecidableEq

/-- Result of one watchdog tick for one interface: the new state and
whether `InitializeSingle` was invoked on this tick. -/
structure TickResult where
  state : WatchdogIfaceState
  reinitAttempted : Bool
deriving DecidableEq

/-- `handleUnhealthyInterface`: no-op if recovery is disabled; gives up
(no reinitialization) once the counter has reached the ceiling;
otherwise runs `recoverInterface` = `RemoveInterface` (registry entry
deleted) then `InitializeSingle` (entry re-inserted only on success):
success resets the counter, failure increments it and — because the
failed `InitializeSingle` inserted nothing — leaves the interface
outside the registry. -/
def handleUnhealthyInterface (cfg : WatchdogConfig)
    (s : WatchdogIfaceState) (initSucceeds : Bool) : TickResult :=
  if !cfg.recoveryEnabled then ⟨s, false⟩
  else if s.attempts ≥ cfg.maxRecoveryAttempts then ⟨s, false⟩
  else if initSucceeds then ⟨⟨true, 0⟩, true⟩
  else ⟨⟨false, s.attempts + 1⟩, true⟩

/-- One `checkInterfaces` tick for a single interface: an interface
without a registry entry is not iterated at all; otherwise
`shouldCheckInterface` gates the health probe; a passing probe resets
the counter (`resetRecoveryAttempts` deletes the map entry, i.e. reads
back as 0), a failing one runs `handleUnhealthyInterface`. -/
def checkInterfaceTick (cfg : WatchdogConfig) (s : WatchdogIfaceState)
    (shouldCheck healthOK initSucceeds : Bool) : TickResult :=
  if s.inRegistry then
    if shouldCheck then
      if healthOK then ⟨⟨true, 0⟩, false⟩
      else handleUnhealthyInterface cfg s initSucceeds
    else ⟨s, false⟩
  else ⟨s, false⟩

/-- State after `n` ticks in the environment of C4: the interface starts
registered with a zero counter, `shouldCheckInterface` would always
probe it, the probe always fails, and every reinitialization fails. -/
def failingTicks (cfg : WatchdogConfig) : Nat → WatchdogIfaceState
  | 0 => ⟨true, 0⟩
  | n + 1 =>
    (checkInterfaceTick cfg (failingTicks cfg n) true false false).state

/-- C4 evaluated on the code: with the default config (ceiling 3) and a
health probe and recovery that always fail, the very first tick removes
the interface from the registry with the counter at 1, and every later
tick leaves it there untouched, attempting no reinitialization — the
counter never reaches the ceiling of 3 and the exhausted ("giving up")
branch is unreachable, contradicting the claimed three failed recovery
cycles. -/
theorem watchdog_recovery_abandoned (n : Nat) :
    failingTicks DefaultWatchdogConfig (n + 1) =
        { inRegistry := false, attempts := 1 } ∧
      checkInterfaceTick DefaultWatchdogConfig
          (failingTicks DefaultWatchdogConfig (n + 1)) true false false =
        { state := { inRegistry := false, attempts := 1 },
          reinitAttempted := false } ∧
      (failingTicks DefaultWatchdogConfig n).attempts <
        DefaultWatchdogConfig.maxRecoveryAttempts := by
  have hstuck : ∀ m : Nat, failingTicks DefaultWatchdogConfig (m + 1) =
      { inRegistry := false, attempts := 1 } := by
    intro m
    induction m with
    | zero => rfl
    | succ k ih =>
      show (checkInterfaceTick DefaultWatchdogConfig
        (failingTicks DefaultWatchdogConfig (k + 1)) true false false).state
          = _
      rw [ih]
      decide
  refine ⟨hstuck n, by rw [hstuck n]; decide, ?_⟩
  cases n with
  | zero => decide
  | succ k =>
    rw [hstuck k]
    decide

/-! ## Interface registry initialization (interface.go `InitializeAll`)

`InitializeAll` loops over the configured port names, attempting
`InitializeSingle` for each (whose socket-level success is an oracle
here), counting successes and remembering the last failure.  It returns
an error only when no interface initialized; the error text carries the
full configured port list and the last per-interface error. -/

/-- The error text `InitializeSingle` surfaces after exhausting its 5
attempts. -/
def initSingleErr (ifName : String) : String :=
  "failed to initialize " ++ ifName ++ " after 5 attempts"

/-- The aggregate error of `InitializeAll`: the configured port list it
reports plus the last per-interface error. -/
structure InitAllError where
  ports : List String
  lastErr : Option String
deriving DecidableEq

/-- `InitializeAll`: `none` is overall success; interface-level failures
are only recorded (logged and skipped), and the aggregate error is
returned exactly when the success count is zero. -/
def InitializeAll (ports : List String) (initOK : String → Bool) :
    Option InitAllError :=
  let st := ports.foldl
    (fun (acc : Option String × Nat) ifName =>
      if initOK ifName then (acc.1, acc.2 + 1)
      else (some (initSingleErr ifName), acc.2))
    (Option.none, 0)
  if st.2 = 0 then some { ports := ports, lastErr := st.1 }
  else Option.none

theorem initializeAll_count (ports : List String) (initOK : String → Bool)
    (acc : Option String × Nat) :
    (ports.foldl
      (fun (acc : Option String × Nat) ifName =>
        if initOK ifName then (acc.1, acc.2 + 1)
        else (some (initSingleErr ifName), acc.2)) acc).2 =
      acc.2 + ports.countP (fun p => initOK p) := by
  induction ports generalizing acc with
  | nil => simp
  | cons p ps ih =>
    rw [List.foldl_cons]
    by_cases hp : initOK p = true
    · rw [if_pos hp, ih]
      rw [List.countP_cons_of_pos _ _ (by simpa using hp)]
      omega
    · rw [if_neg (by simpa using hp), ih]
      rw [List.countP_cons_of_neg _ _ (by simpa using hp)]

/-- C5: `InitializeAll` fails only when every configured interface fails
to initialize, and then its aggregate error lists every configured (and
hence every failed) interface; as soon as one interface succeeds, the
call succeeds and the other failures are merely skipped. -/
theorem initialize_all_aggregate (ports : List String)
    (initOK : String → Bool) :
    (∀ e : InitAllError, InitializeAll ports initOK = some e →
        (∀ p ∈ ports, initOK p = false) ∧ e.ports = ports) ∧
      ((∃ p ∈ ports, initOK p = true) →
        InitializeAll ports initOK = Option.none) := by
  have hcnt := initializeAll_count ports initOK (Option.none, 0)
  constructor
  · intro e he
    rw [InitializeAll] at he
    by_cases hz : (ports.foldl
        (fun (acc : Option String × Nat) ifName =>
          if initOK ifName then (acc.1, acc.2 + 1)
          else (some (initSingleErr ifName), acc.2)) (Option.none, 0)).2 = 0
    · rw [hz] at hcnt
      constructor
      · intro p hp
        by_contra hcontra
        have hcp : 0 < ports.countP (fun p => initOK p) :=
          List.countP_pos_iff.mpr ⟨p, hp, by simpa using hcontra⟩
        omega
      · simp only [if_pos hz] at he
        have := Option.some.inj he
        rw [← this]
    · simp only [if_neg hz] at he
      exact absurd he (by simp)
  · intro ⟨p, hp, hok⟩
    rw [InitializeAll]
    have hcp : 0 < ports.countP (fun p => initOK p) :=
      List.countP_pos_iff.mpr ⟨p, hp, by simpa using hok⟩
    rw [if_neg (by omega)]

/-- Witness for `initialize_all_aggregate`: of `can0`, `can1` only `can0`
initializes, and the call succeeds overall. -/
theorem initialize_all_aggregate_witness :
    (∃ p ∈ ["can0", "can1"], (fun n => n == "can0") p = true) ∧
      InitializeAll ["can0", "can1"] (fun n => n == "can0") =
        Option.none :=
  ⟨⟨"can0", by decide⟩,
    (initialize_all_aggregate ["can0", "can1"] (fun n => n == "can0")).2
      ⟨"can0", by decide⟩⟩

/-! ## Send path (sender.go, config.go, api.go)

`SendCanMessage` validates the interface against the configured port
list, looks it up in the registry, checks the payload length, and only
then locks the device and performs the single `SendTo` transmission.
The HTTP handler `handleCanMessage` runs `ValidateMessage` first and
sends only if validation passes.  Each error return site of the Go code
is one constructor of `SendError`; the embedding counts `SendTo` calls
so that "no socket I/O" is a provable statement. -/

inductive SendError where
  | interfaceRequired : SendError
  | unconfigured : String → SendError
  | notInitialized : String → SendError
  | dataTooLong : SendError
  | dataEmpty : SendError
  | transport : String → SendError
deriving DecidableEq

/-- The `InvalidFrame` entries of the error taxonomy: payload too long or
payload empty. -/
def SendError.isInvalidFrame : SendError → Bool
  | SendError.dataTooLong => true
  | SendError.dataEmpty => true
  | _ => false

/-- config.go `ValidateInterface`: linear scan of the configured ports. -/
def ValidateInterface (canPorts : List String) (ifName : String) : Bool :=
  canPorts.any (fun port => port == ifName)

/-- The request body (`CanMessage`): target interface, identifier and
payload bytes.  The optional `Length` JSON field is ignored by the send
path, which uses `len(msg.Data)`. -/
structure CanMessage where
  interface : String
  id : Nat
  data : List Nat
deriving DecidableEq

/-- What a send attempt did: the returned error (`none` is success) and
how many `SendTo` socket transmissions were performed. -/
structure SendOutcome where
  result : Option SendError
  socketCalls : Nat
deriving DecidableEq

/-- sender.go `sendMessage`: one `SendTo` call whose outcome is the
oracle `transportErr`; metrics recording is `RecordSuccess`/`RecordError`
on the interface metrics (tracked separately, see `RecordSuccess`). -/
def sendMessage (transportErr : Option String) : SendOutcome :=
  match transportErr with
  | Option.none => { result := Option.none, socketCalls := 1 }
  | some e => { result := some (SendError.transport e), socketCalls := 1 }

/-- sender.go `SendCanMessage`: configured-port validation, registry
lookup (`initialized` is `GetInterface` success), payload length bound,
then the transmission. -/
def SendCanMessage (canPorts : List String) (initialized : String → Bool)
    (transportErr : Option String) (msg : CanMessage) : SendOutcome :=
  if !(ValidateInterface canPorts msg.interface) then
    { result := some (SendError.unconfigured msg.interface),
      socketCalls := 0 }
  else if !(initialized msg.interface) then
    { result := some (SendError.notInitialized msg.interface),
      socketCalls := 0 }
  else if msg.data.length > 8 then
    { result := some SendError.dataTooLong, socketCalls := 0 }
  else
    sendMessage transportErr

/-- sender.go `ValidateMessage`: name nonempty, configured, payload
nonempty, payload at most 8 bytes. -/
def ValidateMessage (canPorts : List String) (msg : CanMessage) :
    Option SendError :=
  if msg.interface = "" then some SendError.interfaceRequired
  else if !(ValidateInterface canPorts msg.interface) then
    some (SendError.unconfigured msg.interface)
  else if msg.data.length = 0 then some SendError.dataEmpty
  else if msg.data.length > 8 then some SendError.dataTooLong
  else Option.none

/-- api.go `handleCanMessage`: validate, and only send when validation
passes. -/
def handleCanMessage (canPorts : List String) (initialized : String → Bool)
    (transportErr : Option String) (msg : CanMessage) : SendOutcome :=
  match ValidateMessage canPorts msg with
  | some e => { result := some e, socketCalls := 0 }
  | Option.none => SendCanMessage canPorts initialized transportErr msg

/-- C6 counterexample: a send request whose payload has 9 bytes but whose
interface is not configured fails with the `UnconfiguredInterface` error,
not with `InvalidFrame` — so "payload length > 8 always fails with
`InvalidFrame`" is false as stated (the no-socket-I/O half does hold). -/
theorem length_bound_counterexample :
    (SendCanMessage [] (fun _ => true) Option.none
        { interface := "can0", id := 1, data := [0, 0, 0, 0, 0, 0, 0, 0, 0] }
      ).result = some (SendError.unconfigured "can0") ∧
      (SendError.unconfigured "can0").isInvalidFrame = false ∧
      (SendCanMessage [] (fun _ => true) Option.none
          { interface := "can0", id := 1,
            data := [0, 0, 0, 0, 0, 0, 0, 0, 0] }).socketCalls = 0 := by
  refine ⟨?_, rfl, rfl⟩
  rfl

/-- C6 (amended): a send request with payload longer than 8 bytes always
fails and performs no socket I/O; when its interface is configured and
initialized the error is `InvalidFrame` (payload too long), while an
unconfigured or uninitialized interface reports its own earlier
validation error. -/
theorem length_bound (canPorts : List String) (initialized : String → Bool)
    (transportErr : Option String) (msg : CanMessage)
    (h : msg.data.length > 8) :
    (SendCanMessage canPorts initialized transportErr msg).socketCalls = 0 ∧
      (SendCanMessage canPorts initialized transportErr msg).result.isSome ∧
      (ValidateInterface canPorts msg.interface = true →
        initialized msg.interface = true →
        SendCanMessage canPorts initialized transportErr msg =
          { result := some SendError.dataTooLong, socketCalls := 0 }) := by
  rw [SendCanMessage]
  by_cases h1 : ValidateInterface canPorts msg.interface = true
  · rw [h1]
    by_cases h2 : initialized msg.interface = true
    · rw [h2]
      simp [h]
    · simp only [Bool.not_eq_true] at h2
      rw [h2]
      simp [h2]
  · simp only [Bool.not_eq_true] at h1
    rw [h1]
    simp [h1]

/-- Witness for `length_bound`: configured, initialized `can0`, payload
of 9 zero bytes. -/
theorem length_bound_witness :
    ([0, 0, 0, 0, 0, 0, 0, 0, 0] : List Nat).length > 8 ∧
      (SendCanMessage ["can0"] (fun _ => true) Option.none
          { interface := "can0", id := 1,
            data := [0, 0, 0, 0, 0, 0, 0, 0, 0] }).socketCalls = 0 ∧
      (SendCanMessage ["can0"] (fun _ => true) Option.none
          { interface := "can0", id := 1,
            data := [0, 0, 0, 0, 0, 0, 0, 0, 0] }).result.isSome :=
  have h := length_bound ["can0"] (fun _ => true) Option.none
    { interface := "can0", id := 1, data := [0, 0, 0, 0, 0, 0, 0, 0, 0] }
    (by decide)
  ⟨by decide, h.1, h.2.1⟩

/-- C7: a send request naming an interface absent from the configured
port list always fails with the `UnconfiguredInterface` error and
performs no socket I/O, whatever the registry (`initialized`) and the
transport would have done. -/
theorem unconfigured_rejection (canPorts : List String)
    (initialized : String → Bool) (transportErr : Option String)
    (msg : CanMessage)
    (h : ValidateInterface canPorts msg.interface = false) :
    SendCanMessage canPorts initialized transportErr msg =
      { result := some (SendError.unconfigured msg.interface),
        socketCalls := 0 } := by
  rw [SendCanMessage, h]
  simp

/-- Witness for `unconfigured_rejection`: `can9` is not among the
configured ports, with a nonempty registry answering `true`. -/
theorem unconfigured_rejection_witness :
    ValidateInterface ["can0", "can1"] "can9" = false ∧
      SendCanMessage ["can0", "can1"] (fun _ => true) Option.none
          { interface := "can9", id := 2, data := [1] } =
        { result := some (SendError.unconfigured "can9"),
          socketCalls := 0 } :=
  ⟨by decide,
    unconfigured_rejection ["can0", "can1"] (fun _ => true) Option.none
      { interface := "can9", id := 2, data := [1] } (by decide)⟩

/-- C9: a send request with an empty payload for a configured interface
(with any registry state, so in particular an initialized one) is
rejected by the API send path with the payload-empty `InvalidFrame`
error, and no socket transmission happens.  (An empty interface name
cannot be configured: `ValidateConfig` rejects empty port names.) -/
theorem empty_payload_rejection (canPorts : List String)
    (initialized : String → Bool) (transportErr : Option String)
    (msg : CanMessage) (hname : msg.interface ≠ "")
    (hcfg : ValidateInterface canPorts msg.interface = true)
    (hdata : msg.data = []) :
    handleCanMessage canPorts initialized transportErr msg =
        { result := some SendError.dataEmpty, socketCalls := 0 } ∧
      SendError.dataEmpty.isInvalidFrame = true := by
  refine ⟨?_, rfl⟩
  rw [handleCanMessage]
  have hv : ValidateMessage canPorts msg = some SendError.dataEmpty := by
    rw [ValidateMessage, if_neg hname, hcfg]
    simp [hdata]
  rw [hv]

/-- Witness for `empty_payload_rejection`: configured, initialized
`can0` with an empty payload. -/
theorem empty_payload_rejection_witness :
    ("can0" : String) ≠ "" ∧
      ValidateInterface ["can0"] "can0" = true ∧
      handleCanMessage ["can0"] (fun _ => true) Option.none
          { interface := "can0", id := 3, data := [] } =
        { result := some SendError.dataEmpty, socketCalls := 0 } :=
  ⟨by decide, by decide,
    (empty_payload_rejection ["can0"] (fun _ => true) Option.none
      { interface := "can0", id := 3, data := [] }
      (by decide) (by decide) rfl).1⟩

/-! ## Monitor (monitor module)

`determineHealthStatus` classifies an interface from its cumulative
health-check counters; the `float64` ratio is modelled as an exact
rational.  `getInterfaceStatuses` builds a map keyed by interface name:
live registry entries are reported active with a freshly checked health,
then every configured port still missing is added inactive with
"critical" health; the map value is modelled as a lookup function.
Only the fields the monitor claims speak about are carried. -/

structure HealthTracker where
  checksPassed : Nat
  checksFailed : Nat
deriving DecidableEq

/-- `Monitor.determineHealthStatus`: "unknown" with no checks yet, then
the 3-tier classification of the passed/total ratio. -/
def determineHealthStatus (tracker : HealthTracker) : String :=
  let total := tracker.checksPassed + tracker.checksFailed
  if total = 0 then "unknown"
  else
    let successRate : ℚ := (tracker.checksPassed : ℚ) / (total : ℚ)
    if successRate ≥ 95 / 100 then "healthy"
    else if successRate ≥ 80 / 100 then "warning"
    else "critical"

/-- `Monitor.checkInterfaceHealth`: run one probe (oracle `isHealthy`),
bump the corresponding counter, classify on the updated tracker. -/
def checkInterfaceHealth (tracker : HealthTracker) (isHealthy : Bool) :
    HealthTracker × String :=
  let t := if isHealthy then
      { tracker with checksPassed := tracker.checksPassed + 1 }
    else
      { tracker with checksFailed := tracker.checksFailed + 1 }
  (t, determineHealthStatus t)

/-- The monitor fields of one entry of the interface-status map. -/
structure InterfaceStatusEntry where
  name : String
  active : Bool
  health : String
deriving DecidableEq

/-- `Monitor.getInterfaceStatuses` as the map it builds: live registry
entries are active with checked health; configured ports not in the
registry are added inactive with "critical" health; everything else is
absent. -/
def getInterfaceStatuses (activeIfs : List String)
    (canPorts : List String) (trackerOf : String → HealthTracker)
    (healthOK : String → Bool) : String → Option InterfaceStatusEntry :=
  fun name =>
    if activeIfs.contains name then
      some { name := name, active := true,
             health := (checkInterfaceHealth (trackerOf name)
               (healthOK name)).2 }
    else if canPorts.contains name then
      some { name := name, active := false, health := "critical" }
    else
      Option.none

/-- C8: the health classification is "unknown" with no checks, "healthy"
at ratio ≥ 0.95, "warning" at ratio ≥ 0.80, "critical" below; and a
configured port with no live registry entry appears in the status map as
inactive with "critical" health rather than being omitted. -/
theorem monitor_health_classification (tracker : HealthTracker)
    (activeIfs canPorts : List String)
    (trackerOf : String → HealthTracker) (healthOK : String → Bool)
    (port : String) (hin : port ∈ canPorts) (hout : port ∉ activeIfs) :
    (tracker.checksPassed + tracker.checksFailed = 0 →
        determineHealthStatus tracker = "unknown") ∧
      (tracker.checksPassed + tracker.checksFailed ≠ 0 →
        ((tracker.checksPassed : ℚ) /
              ((tracker.checksPassed + tracker.checksFailed : Nat) : ℚ) ≥
            95 / 100 →
          determineHealthStatus tracker = "healthy") ∧
        (¬ ((tracker.checksPassed : ℚ) /
              ((tracker.checksPassed + tracker.checksFailed : Nat) : ℚ) ≥
            95 / 100) →
          (tracker.checksPassed : ℚ) /
              ((tracker.checksPassed + tracker.checksFailed : Nat) : ℚ) ≥
            80 / 100 →
          determineHealthStatus tracker = "warning") ∧
        (¬ ((tracker.checksPassed : ℚ) /
              ((tracker.checksPassed + tracker.checksFailed : Nat) : ℚ) ≥
            80 / 100) →
          determineHealthStatus tracker = "critical")) ∧
      getInterfaceStatuses activeIfs canPorts trackerOf healthOK port =
        some { name := port, active := false, health := "critical" } := by
  refine ⟨?_, ?_, ?_⟩
  · intro h0
    rw [determineHealthStatus, if_pos h0]
  · intro hne
    refine ⟨?_, ?_, ?_⟩
    · intro hge
      rw [determineHealthStatus, if_neg hne]
      simp only []
      rw [if_pos (by push_cast at hge ⊢; exact hge)]
    · intro hlt hge
      rw [determineHealthStatus, if_neg hne]
      simp only []
      rw [if_neg (by push_cast at hlt ⊢; exact hlt),
        if_pos (by push_cast at hge ⊢; exact hge)]
    · intro hlt
      have hlt95 : ¬ ((tracker.checksPassed : ℚ) /
          ((tracker.checksPassed + tracker.checksFailed : Nat) : ℚ) ≥
            95 / 100) := by
        intro hge
        apply hlt
        calc (80 / 100 : ℚ) ≤ 95 / 100 := by norm_num
          _ ≤ _ := hge
      rw [determineHealthStatus, if_neg hne]
      simp only []
      rw [if_neg (by push_cast at hlt95 ⊢; exact hlt95),
        if_neg (by push_cast at hlt ⊢; exact hlt)]
  · rw [getInterfaceStatuses]
    rw [if_neg (by simpa using hout), if_pos (by simpa using hin)]

/-- Witness for `monitor_health_classification`: a 19-passed/1-failed
tracker (ratio exactly 0.95) and configured port `can1` that is not in
the registry. -/
theorem monitor_health_classification_witness :
    ("can1" : String) ∈ ["can0", "can1"] ∧
      ("can1" : String) ∉ ["can0"] ∧
      determineHealthStatus { checksPassed := 19, checksFailed := 1 } =
        "healthy" ∧
      getInterfaceStatuses ["can0"] ["can0", "can1"]
          (fun _ => { checksPassed := 0, checksFailed := 0 })
          (fun _ => true) "can1" =
        some { name := "can1", active := false, health := "critical" } := by
  have h := monitor_health_classification
    { checksPassed := 19, checksFailed := 1 } ["can0"] ["can0", "can1"]
    (fun _ => { checksPassed := 0, checksFailed := 0 }) (fun _ => true)
    "can1" (by decide) (by decide)
  refine ⟨by decide, by decide, ?_, h.2.2⟩
  exact (h.2.1 (by decide)).1 (by norm_num)

/-! ## Success rate (types.go `InterfaceStats.SuccessRate`)

`TotalSent` and `TotalErrors` are `uint64`; the Go expression
`s.TotalSent - s.TotalErrors` is unsigned subtraction, wrapping modulo
2^64 before the `float64` conversion.  `sub64` is that wrapped
difference, on counter values below 2^64; the `float64` arithmetic is
modelled by exact rationals, which is faithful for the sign and
magnitude comparisons settled here. -/

/-- The uint64 modulus. -/
def UINT64_MOD : Nat := 18446744073709551616

/-- Wrapping uint64 subtraction on values below the modulus. -/
def sub64 (a b : Nat) : Nat :=
  (a % UINT64_MOD + (UINT64_MOD - b % UINT64_MOD)) % UINT64_MOD

/-- The metrics snapshot fields `SuccessRate` reads. -/
structure InterfaceStats where
  totalSent : Nat
  totalErrors : Nat
deriving DecidableEq

/-- `GetStats` snapshot of the counters. -/
def GetStats (m : InterfaceMetrics) : InterfaceStats :=
  { totalSent := m.totalSent, totalErrors := m.totalErrors }

/-- `InterfaceStats.SuccessRate`: 100 when nothing was sent, otherwise
`100 * (TotalSent - TotalErrors) / TotalSent` with the uint64
subtraction wrapping. -/
def SuccessRate (s : InterfaceStats) : ℚ :=
  if s.totalSent = 0 then 100
  else 100 * ((sub64 s.totalSent s.totalErrors : Nat) : ℚ) /
    ((s.totalSent : Nat) : ℚ)

/-- C10 counterexample: the state with one recorded success and two
recorded errors (reachable from fresh metrics via one `RecordSuccess`
and two `RecordError` calls) has `TotalErrors > TotalSent > 0`, yet its
reported success rate is the huge positive number
`100 * (2^64 - 1)`, not a negative one — the uint64 subtraction wraps
instead of going negative. -/
theorem success_rate_counterexample :
    GetStats (RecordError (RecordError (RecordSuccess NewInterfaceMetrics 5)
        "e1") "e2") = { totalSent := 1, totalErrors := 2 } ∧
      (2 : Nat) > 1 ∧ (1 : Nat) > 0 ∧
      SuccessRate { totalSent := 1, totalErrors := 2 } =
        100 * ((18446744073709551615 : Nat) : ℚ) ∧
      ¬ SuccessRate { totalSent := 1, totalErrors := 2 } < 0 := by
  refine ⟨rfl, by norm_num, by norm_num, ?_, ?_⟩
  · rw [SuccessRate]
    norm_num [sub64, UINT64_MOD]
  · rw [SuccessRate]
    norm_num [sub64, UINT64_MOD]

/-- C10 (amended): `SuccessRate` returns 100 when `TotalSent` is 0 and
otherwise `100 * ((TotalSent - TotalErrors) mod 2^64) / TotalSent`,
because the subtraction is unsigned; `TotalSent` is incremented only by
`RecordSuccess` (successful sends) and `TotalErrors` only by
`RecordError` (failed sends), so states with `TotalErrors > TotalSent >
0` are reachable, and in any such state the wrapped rate exceeds 100 —
a huge positive report, never a negative one. -/
theorem success_rate_formula (s : InterfaceStats) :
    (s.totalSent = 0 → SuccessRate s = 100) ∧
      (s.totalSent ≠ 0 →
        SuccessRate s =
          100 * ((sub64 s.totalSent s.totalErrors : Nat) : ℚ) /
            ((s.totalSent : Nat) : ℚ)) ∧
      (∀ (m : InterfaceMetrics) (lat : Nat),
        (RecordSuccess m lat).totalSent = m.totalSent + 1 ∧
          (RecordSuccess m lat).totalErrors = m.totalErrors) ∧
      (∀ (m : InterfaceMetrics) (e : String),
        (RecordError m e).totalErrors = m.totalErrors + 1 ∧
          (RecordError m e).totalSent = m.totalSent) ∧
      (0 < s.totalSent → s.totalSent < s.totalErrors →
        s.totalErrors < UINT64_MOD → SuccessRate s > 100) := by
    refine ⟨?_, ?_, fun m lat => ⟨rfl, rfl⟩, fun m e => ⟨rfl, rfl⟩, ?_⟩
    · intro h0
      rw [SuccessRate, if_pos h0]
    · intro hne
      rw [SuccessRate, if_neg hne]
    · intro hpos hlt hmod
      have hM : UINT64_MOD = 18446744073709551616 := rfl
      have hsub : sub64 s.totalSent s.totalErrors =
          s.totalSent + UINT64_MOD - s.totalErrors := by
        rw [hM] at hmod
        rw [sub64, hM]
        omega
      rw [SuccessRate, if_neg (by omega), hsub]
      rw [gt_iff_lt, lt_div_iff₀ (by positivity)]
      have hgt : (s.totalSent : ℚ) <
          ((s.totalSent + UINT64_MOD - s.totalErrors : Nat) : ℚ) := by
        have : s.totalSent < s.totalSent + UINT64_MOD - s.totalErrors := by
          have : 0 < UINT64_MOD := by rw [UINT64_MOD]; omega
          omega
        exact_mod_cast this
      nlinarith [hgt]

/-- Witness for `success_rate_formula` at one success, two errors. -/
theorem success_rate_formula_witness :
    (0 : Nat) < 1 ∧ (1 : Nat) < 2 ∧ (2 : Nat) < UINT64_MOD ∧
      SuccessRate { totalSent := 1, totalErrors := 2 } > 100 :=
  ⟨by decide, by decide, by decide,
    (success_rate_formula { totalSent := 1, totalErrors := 2 }).2.2.2.2
      (by decide) (by decide) (by decide)⟩

end CanBridge
